import Mathlib

/-!
Verification of the workflow orchestration engine of the multi-agent
question-answering app. The definitions below are a shallow embedding of
`src/graph/langGraph.ts`: the execution state, the per-node state-transition
functions, the channel merger, the conditional-edge helpers and the driver
loop. External collaborators (the LLM endpoint behind `callOpenAI` and the
five domain agents' `handleQuery`) are modelled as oracle functions that may
fail, mirroring thrown exceptions with `Except`.
-/

namespace AgentGraph

set_option maxRecDepth 10000

/-! ### String primitives (JS `includes`, `toLowerCase`, `trim`, `toUpperCase`) -/

/-- Boolean list-prefix test, modelling the inner loop of JS `String.includes`. -/
def isPrefixL : List Char → List Char → Bool
  | [], _ => true
  | _ :: _, [] => false
  | a :: as, b :: bs => a == b && isPrefixL as bs

/-- Boolean infix test on character lists. -/
def hasInfixL (needle : List Char) : List Char → Bool
  | [] => isPrefixL needle []
  | c :: rest => isPrefixL needle (c :: rest) || hasInfixL needle rest

/-- JS `s.includes(sub)`. -/
def strIncludes (s sub : String) : Bool := hasInfixL sub.data s.data

/-- JS `s.toLowerCase()` (ASCII case fold, which covers all vocabulary words). -/
def strToLower (s : String) : String := String.mk (s.data.map Char.toLower)

/-- JS `s.toUpperCase()`. -/
def strToUpper (s : String) : String := String.mk (s.data.map Char.toUpper)

/-- JS `s.trim()`: strip whitespace from both ends. -/
def strTrim (s : String) : String :=
  String.mk (((s.data.dropWhile Char.isWhitespace).reverse.dropWhile Char.isWhitespace).reverse)

/-! ### JS object (string-keyed record) operations, insertion ordered -/

/-- `{...m, k: v}`: replace the value in place if the key exists, else append. -/
def recordSet : List (String × String) → String → String → List (String × String)
  | [], k, v => [(k, v)]
  | (k', v') :: rest, k, v =>
    if k' = k then (k, v) :: rest else (k', v') :: recordSet rest k v

/-- `m[k]`, `undefined` as `none`. -/
def recordGet : List (String × String) → String → Option String
  | [], _ => none
  | (k', v') :: rest, k => if k' = k then some v' else recordGet rest k

/-- `Object.keys(m)` in insertion order. -/
def recordKeys (m : List (String × String)) : List String := m.map Prod.fst

/-- Key-membership test. -/
def recordHasKey (m : List (String × String)) (k : String) : Bool :=
  (recordKeys m).contains k

/-- `Object.entries(m).map(([k, v]) => ...)` text used by the synthesis prompt. -/
def entryLine (kv : String × String) : String :=
  strToUpper kv.fst ++ (" AGENT: ") ++ kv.snd

/-! ### The `AgentState` data model (`type AgentState` in `langGraph.ts`) -/

/-- One entry of `state.history`; `agent` is the optional responder tag. -/
structure HistoryEntry where
  role : String
  content : String
  agent : Option String := none
deriving DecidableEq

/-- The per-request execution state threaded through the graph. -/
structure AgentState where
  query : String
  topic : Option String
  needsRerouting : Bool
  agentResponses : List (String × String)
  finalResponse : Option String
  currentAgent : Option String
  history : List HistoryEntry
deriving DecidableEq

/-- A node's partial return value: `none` means the channel is absent from the
patch and keeps its previous value. -/
structure Patch where
  query : Option String := none
  topic : Option (Option String) := none
  needsRerouting : Option Bool := none
  agentResponses : Option (List (String × String)) := none
  finalResponse : Option (Option String) := none
  currentAgent : Option (Option String) := none
  history : Option (List HistoryEntry) := none
deriving DecidableEq

/-- `defaultMerger` from `langGraph.ts`: `(a, b) => b`, used as the `value`
merger of every channel in `createAgentGraph`. -/
def defaultMerger {α : Type} (a b : α) : α := b

/-- Channel update: when the patch carries the field, combine old and new with
the channel's merger (`defaultMerger` for every channel); otherwise keep old. -/
def mergeField {α : Type} (old : α) : Option α → α
  | some b => defaultMerger old b
  | none => old

/-- Merge a node's returned patch into the state, channel by channel. -/
def applyPatch (s : AgentState) (p : Patch) : AgentState where
  query := mergeField s.query p.query
  topic := mergeField s.topic p.topic
  needsRerouting := mergeField s.needsRerouting p.needsRerouting
  agentResponses := mergeField s.agentResponses p.agentResponses
  finalResponse := mergeField s.finalResponse p.finalResponse
  currentAgent := mergeField s.currentAgent p.currentAgent
  history := mergeField s.history p.history

/-! ### External collaborators -/

/-- The external calls the graph makes: the LLM endpoint (`callOpenAI`) and the
per-responder `handleQuery` (first argument: the responder id). Each may fail,
modelling a thrown exception. -/
structure Collaborators where
  callOpenAI : String → Except String String
  handleQuery : String → String → Except String String

/-- Template interpolation of a nullable string (`null` prints as "null"). -/
def showNullable : Option String → String
  | some x => x
  | none => "null"

/-! ### Prompts -/

/-- The classification prompt built by `analyzerNode`. -/
def analyzerPrompt (query : String) : String :=
  ("Determine which category the following question belongs to. \n") ++
  ("Respond with only one of these exact words: \"weather\", \"sports\", \"news\", \"stocks\", or \"health\".\n\n") ++
  ("Question: ") ++ query ++ ("\n\n") ++
  ("Consider:\n") ++
  ("- \"weather\" for questions about weather conditions, forecasts, etc.\n") ++
  ("- \"sports\" for questions about games, teams, players, scores, etc.\n") ++
  ("- \"news\" for questions about current events and breaking news.\n") ++
  ("- \"stocks\" for questions about the stock market, investments, company financials, etc.\n") ++
  ("- \"health\" for questions about fitness, wellness, health concerns, etc.")

/-- The judge prompt built by `evaluatorNode`. -/
def evaluationPrompt (s : AgentState) : String :=
  let currentAgentResponse := (recordGet s.agentResponses (s.currentAgent.getD (""))).getD ("")
  ("\nReview this response to the user\x27s query and determine if it needs additional information \nfrom a different domain expert:\n\n") ++
  ("User Query: ") ++ s.query ++ ("\n") ++
  ("Current Response (from ") ++ showNullable s.currentAgent ++ (" agent): ") ++ currentAgentResponse ++ ("\n\n") ++
  ("Should this query be routed to another agent for additional information? \n") ++
  ("If yes, which ONE other agent would be most helpful (weather, sports, news, stocks, or health)?\n") ++
  ("If no, just respond with \"COMPLETE\".\n\n") ++
  ("Consider:\n") ++
  ("- Only recommend routing to another agent if critical information is missing\n") ++
  ("- We have already consulted: ") ++ String.intercalate (", ") (recordKeys s.agentResponses) ++ ("\n") ++
  ("- Each additional agent consultation adds processing time\n\n") ++
  ("Answer with only \"COMPLETE\" or the name of the ONE other agent.\n")

/-- The synthesis prompt built by `synthesisNode`. -/
def synthesisPrompt (query : String) (responses : List (String × String)) : String :=
  let agentResponsesText := String.intercalate ("\n\n") (responses.map entryLine)
  ("\nThe user asked: \"") ++ query ++ ("\"\n\n") ++
  ("Different agents have provided the following responses:\n\n") ++
  agentResponsesText ++ ("\n\n") ++
  ("Create a unified, coherent answer that combines the relevant information from these responses.\n") ++
  ("Make sure the answer is comprehensive but not repetitive.\n") ++
  ("If there are any contradictions between the responses, acknowledge them and provide the most accurate information.\n")

/-! ### Nodes -/

/-- A `role: system` history entry (no `agent` tag). -/
def sysEntry (content : String) : HistoryEntry :=
  { role := ("system"), content := content }

/-- The topic extraction of `analyzerNode`: lower-case, trim, then the first
match in the fixed order weather, sports, news, stocks, health; default news. -/
def classifyTopic (response : String) : String :=
  let cleanResponse := strTrim (strToLower response)
  if strIncludes cleanResponse ("weather") then ("weather")
  else if strIncludes cleanResponse ("sports") then ("sports")
  else if strIncludes cleanResponse ("news") then ("news")
  else if strIncludes cleanResponse ("stocks") then ("stocks")
  else if strIncludes cleanResponse ("health") then ("health")
  else ("news")

/-- Node 1, `analyzerNode`: classify the query via the external LLM. -/
def analyzerNode (c : Collaborators) (s : AgentState) : Except String Patch :=
  match c.callOpenAI (analyzerPrompt s.query) with
  | .error e => .error e
  | .ok response =>
    let topic := classifyTopic response
    .ok { topic := some (some topic),
          history := some (s.history ++ [sysEntry (("Query categorized as: ") ++ topic)]) }

/-- Node 2, `routerNode`: record the chosen responder id. -/
def routerNode (s : AgentState) : Patch :=
  { currentAgent := some s.topic,
    history := some (s.history ++
      [sysEntry (("Routing query to ") ++ showNullable s.topic ++ (" agent"))]) }

/-- Nodes 3a-3e (`weatherNode` ... `healthNode`), one per responder id: each
calls its agent's `handleQuery` and writes its own fixed key into
`agentResponses`, spreading the previous map, and appends a tagged history
entry. -/
def agentNode (c : Collaborators) (id : String) (s : AgentState) : Except String Patch :=
  match c.handleQuery id s.query with
  | .error e => .error e
  | .ok response =>
    .ok { agentResponses := some (recordSet s.agentResponses id response),
          history := some (s.history ++
            [{ role := ("agent"), content := response, agent := some id }]) }

/-- `maxConsultationsPerAgent` in `evaluatorNode`. -/
def maxConsultationsPerAgent : Nat := 2

/-- JS truthiness of the optional `agent` tag (`if (entry.agent)`): `undefined`
and the empty string are falsy. -/
def isCountedAgent : Option String → Bool
  | none => false
  | some a => a != ("")

/-- `agentConsultationCount[a] || 0`: history entries tagged with responder `a`. -/
def consultCounts (h : List HistoryEntry) (a : String) : Nat :=
  (h.filter (fun e => isCountedAgent e.agent && e.agent == some a)).length

/-- `totalConsultations`: the sum of all per-responder counts, i.e. the number
of history entries carrying a (truthy) responder tag. -/
def totalConsultations (h : List HistoryEntry) : Nat :=
  (h.filter (fun e => isCountedAgent e.agent)).length

/-- The recognized responder ids, in the order they appear in the code. -/
def agentIds : List String := [("weather"), ("sports"), ("news"), ("stocks"), ("health")]

/-- The patch returned by `evaluatorNode`'s hard-stop branch. -/
def hardStopPatch (s : AgentState) : Patch :=
  { needsRerouting := some false,
    history := some (s.history ++
      [sysEntry ("Maximum agent consultations reached, proceeding with synthesis")]) }

/-- Node 4, `evaluatorNode`. Consultation counts are recomputed from history;
if `totalConsultations > 5` or the current responder's count has reached
`maxConsultationsPerAgent`, completion is forced with no external call
(the returned flag records whether the judge was called). Otherwise the judge
is consulted and its trimmed, lower-cased output accepted as a reroute exactly
when it is a recognized id, distinct from the current responder, and that id's
count is still below the per-responder cap. -/
def evaluatorNode (c : Collaborators) (s : AgentState) : Except String (Patch × Bool) :=
  let currentAgentConsultCount := consultCounts s.history (s.currentAgent.getD (""))
  if 5 < totalConsultations s.history ∨ maxConsultationsPerAgent ≤ currentAgentConsultCount then
    .ok (hardStopPatch s, false)
  else
    match c.callOpenAI (evaluationPrompt s) with
    | .error e => .error e
    | .ok evaluation =>
      let cleanEvaluation := strToLower (strTrim evaluation)
      let needsRerouting :=
        if cleanEvaluation ≠ ("complete") ∧ cleanEvaluation ∈ agentIds ∧
            some cleanEvaluation ≠ s.currentAgent then
          if consultCounts s.history cleanEvaluation < maxConsultationsPerAgent then true
          else false
        else false
      .ok ({ needsRerouting := some needsRerouting,
             currentAgent := some (if needsRerouting then some cleanEvaluation else s.currentAgent),
             history := some (s.history ++
               [sysEntry (if needsRerouting then
                  ("Response needs additional information from ") ++ cleanEvaluation ++ (" agent")
                else ("Response is complete"))]) }, true)

/-- Node 5, `synthesisNode`: with exactly one collected response, pass it
through verbatim with no external call; otherwise call the synthesis
collaborator on the query and all collected answers. -/
def synthesisNode (c : Collaborators) (s : AgentState) : Except String (Patch × Bool) :=
  if s.agentResponses.length = 1 then
    let agent := (recordKeys s.agentResponses).headD ("")
    .ok ({ finalResponse := some (recordGet s.agentResponses agent),
           history := some (s.history ++
             [sysEntry (("Using direct response from ") ++ agent ++ (" agent"))]) }, false)
  else
    match c.callOpenAI (synthesisPrompt s.query s.agentResponses) with
    | .error e => .error e
    | .ok synthesizedResponse =>
      .ok ({ finalResponse := some (some synthesizedResponse),
             history := some (s.history ++
               [sysEntry ("Synthesized response from multiple agents")]) }, true)

/-! ### Conditional-edge helpers and the driver loop -/

/-- `getNextAgentFromTopic`. -/
def getNextAgentFromTopic (s : AgentState) : String := s.topic.getD ("news")

/-- `getNextAgentFromEvaluation`. -/
def getNextAgentFromEvaluation (s : AgentState) : String :=
  if s.needsRerouting then s.currentAgent.getD ("news") else ("synthesize")

/-- Errors of the driver: a thrown collaborator error, an unmapped conditional
edge key, or hitting the engine's recursion limit. -/
inductive RunError
  | outOfFuel
  | badEdge (key : String)
  | collab (message : String)
deriving DecidableEq

/-- Outcome of one responder→evaluator round. -/
inductive StepResult
  | errored (e : RunError)
  | finished (final : AgentState)
  | loop (key : String) (s : AgentState)
deriving DecidableEq

/-- One round of the responder-evaluator loop: dispatch the conditional-edge
key to the named responder node, merge its patch, run the evaluator, merge its
patch, then resolve the evaluator's conditional edge: `synthesize` runs the
synthesizer and finishes, any other key loops. -/
def runStep (c : Collaborators) (key : String) (s : AgentState) : StepResult :=
  if agentIds.contains key then
    match agentNode c key s with
    | .error e => .errored (.collab e)
    | .ok p =>
      let s1 := applyPatch s p
      match evaluatorNode c s1 with
      | .error e => .errored (.collab e)
      | .ok (p2, _) =>
        let s2 := applyPatch s1 p2
        let nextKey := getNextAgentFromEvaluation s2
        if nextKey = ("synthesize") then
          match synthesisNode c s2 with
          | .error e => .errored (.collab e)
          | .ok (p3, _) => .finished (applyPatch s2 p3)
        else .loop nextKey s2
  else .errored (.badEdge key)

/-- The responder-evaluator loop, fuelled by the engine's recursion limit. -/
def runFrom (c : Collaborators) : Nat → String → AgentState → Except RunError AgentState
  | 0, _, _ => .error .outOfFuel
  | fuel + 1, key, s =>
    match runStep c key s with
    | .errored e => .error e
    | .finished final => .ok final
    | .loop key' s' => runFrom c fuel key' s'

/-- The initial state built by `processQuery`. -/
def initialState (query : String) : AgentState :=
  { query := query, topic := none, needsRerouting := false, agentResponses := [],
    finalResponse := none, currentAgent := none,
    history := [{ role := ("user"), content := query }] }

/-- The entry segment of the graph: analyzer, then router, then the router's
conditional edge computing the first responder key. -/
def routeStage (c : Collaborators) (query : String) : Except String (String × AgentState) :=
  match analyzerNode c (initialState query) with
  | .error e => .error e
  | .ok p =>
    let s1 := applyPatch (initialState query) p
    let s2 := applyPatch s1 (routerNode s1)
    .ok (getNextAgentFromTopic s2, s2)

/-- Full graph execution: entry segment then the responder-evaluator loop. -/
def runGraph (c : Collaborators) (fuel : Nat) (query : String) : Except RunError AgentState :=
  match routeStage c query with
  | .error e => .error (.collab e)
  | .ok (key, s) => runFrom c fuel key s

/-- `processQuery`: run the graph inside try/catch; on success return
`finalResponse` (or the no-result fallback), on any thrown error return the
fixed generic error message. -/
def processQuery (c : Collaborators) (fuel : Nat) (query : String) : String :=
  match runGraph c fuel query with
  | .ok result => result.finalResponse.getD ("Sorry, I couldn\x27t process your query.")
  | .error _ => ("Sorry, an error occurred while processing your query.")

/-! ### Auxiliary definitions used by the statements below -/

/-- The decision the evaluator applies to the judge's normalized output. -/
def judgeAccepts (s : AgentState) (cleanEvaluation : String) : Bool :=
  if cleanEvaluation ≠ ("complete") ∧ cleanEvaluation ∈ agentIds ∧
      some cleanEvaluation ≠ s.currentAgent then
    if consultCounts s.history cleanEvaluation < maxConsultationsPerAgent then true
    else false
  else false

/-- Extract the final state of a successful run (used to apply run-level
theorems at concrete runs). -/
def getOk (x : Except RunError AgentState) : AgentState :=
  match x with
  | .ok f => f
  | .error _ => initialState ("")

/-- Extract the patch of a successful evaluator result. -/
def evalPatchOf (c : Collaborators) (s : AgentState) : Patch :=
  match evaluatorNode c s with
  | .ok (p, _) => p
  | .error _ => {}

/-- Extract the patch of a successful node result. -/
def getPatchOk (x : Except String Patch) : Patch :=
  match x with
  | .ok p => p
  | .error _ => {}

/-- Collaborators whose judge always answers the sentinel "complete". -/
def benignCollabs : Collaborators :=
  { callOpenAI := fun _ => .ok ("complete"),
    handleQuery := fun id _ => .ok (("ans-") ++ id) }

/-- Collaborators whose judge always suggests the sports responder. -/
def sportsJudgeCollabs : Collaborators :=
  { callOpenAI := fun _ => .ok ("sports"),
    handleQuery := fun id _ => .ok (("ans-") ++ id) }

/-- Collaborators whose classifier always answers "banana". -/
def bananaCollabs : Collaborators :=
  { callOpenAI := fun _ => .ok ("banana"),
    handleQuery := fun id _ => .ok (("ans-") ++ id) }

/-- Collaborators whose every external call fails. -/
def failingCollabs : Collaborators :=
  { callOpenAI := fun _ => .error ("boom"),
    handleQuery := fun _ _ => .error ("boom") }

/-- An adversarial judge that walks the run through all five responders and
then asks for weather again: it reads the consulted-responder list embedded in
the evaluation prompt and always names a not-yet-exhausted different
responder. -/
def cyclingCollabs : Collaborators :=
  { callOpenAI := fun prompt =>
      if strIncludes prompt ("Determine which category") then .ok ("weather")
      else if strIncludes prompt ("already consulted: weather, sports, news, stocks, health") then .ok ("weather")
      else if strIncludes prompt ("already consulted: weather, sports, news, stocks") then .ok ("health")
      else if strIncludes prompt ("already consulted: weather, sports, news") then .ok ("stocks")
      else if strIncludes prompt ("already consulted: weather, sports") then .ok ("news")
      else if strIncludes prompt ("already consulted: weather") then .ok ("sports")
      else .ok ("combined answer"),
    handleQuery := fun id _ => .ok (("ans-") ++ id) }

/-- A state in which the weather responder has run once. -/
def oneState : AgentState :=
  { query := ("q"), topic := some ("weather"), needsRerouting := false,
    agentResponses := [(("weather"), ("ans-weather"))],
    finalResponse := none, currentAgent := some ("weather"),
    history := [{ role := ("user"), content := ("q") },
      { role := ("agent"), content := ("ans-weather"), agent := some ("weather") }] }

/-- A state in which the weather responder has run twice. -/
def twiceState : AgentState :=
  { oneState with history := oneState.history ++
      [{ role := ("agent"), content := ("ans-weather-2"), agent := some ("weather") }] }

/-- A state carrying six responder executions in its history. -/
def sixState : AgentState :=
  { query := ("q"), topic := some ("weather"), needsRerouting := false,
    agentResponses := [(("weather"), ("a")), (("sports"), ("b")), (("news"), ("c")),
      (("stocks"), ("d")), (("health"), ("e"))],
    finalResponse := none, currentAgent := some ("weather"),
    history := [{ role := ("agent"), content := ("a"), agent := some ("weather") },
      { role := ("agent"), content := ("b"), agent := some ("sports") },
      { role := ("agent"), content := ("c"), agent := some ("news") },
      { role := ("agent"), content := ("d"), agent := some ("stocks") },
      { role := ("agent"), content := ("e"), agent := some ("health") },
      { role := ("agent"), content := ("f"), agent := some ("weather") }] }

/-- A state in which the weather and sports responders have each run once. -/
def multiState : AgentState :=
  { query := ("q"), topic := some ("weather"), needsRerouting := false,
    agentResponses := [(("weather"), ("wa")), (("sports"), ("sa"))],
    finalResponse := none, currentAgent := some ("sports"),
    history := [{ role := ("user"), content := ("q") },
      { role := ("agent"), content := ("wa"), agent := some ("weather") },
      { role := ("agent"), content := ("sa"), agent := some ("sports") }] }

/-- The news responder's patch at `multiState` under `benignCollabs`. -/
def pNews : Patch := getPatchOk (agentNode benignCollabs ("news") multiState)

/-- A freshly analyzed state, before any responder has run. -/
def mergeDemoState : AgentState :=
  { query := ("q"), topic := some ("news"), needsRerouting := false,
    agentResponses := [], finalResponse := none, currentAgent := none,
    history := [{ role := ("user"), content := ("q") },
      sysEntry ("Query categorized as: news")] }

/-! ## Basic lemmas -/

@[simp] theorem mergeField_some {α : Type} (old b : α) : mergeField old (some b) = b := rfl

@[simp] theorem mergeField_none {α : Type} (old : α) : mergeField old none = old := rfl

@[simp] theorem applyPatch_query (s : AgentState) (p : Patch) :
    (applyPatch s p).query = mergeField s.query p.query := rfl

@[simp] theorem applyPatch_topic (s : AgentState) (p : Patch) :
    (applyPatch s p).topic = mergeField s.topic p.topic := rfl

@[simp] theorem applyPatch_needsRerouting (s : AgentState) (p : Patch) :
    (applyPatch s p).needsRerouting = mergeField s.needsRerouting p.needsRerouting := rfl

@[simp] theorem applyPatch_agentResponses (s : AgentState) (p : Patch) :
    (applyPatch s p).agentResponses = mergeField s.agentResponses p.agentResponses := rfl

@[simp] theorem applyPatch_finalResponse (s : AgentState) (p : Patch) :
    (applyPatch s p).finalResponse = mergeField s.finalResponse p.finalResponse := rfl

@[simp] theorem applyPatch_currentAgent (s : AgentState) (p : Patch) :
    (applyPatch s p).currentAgent = mergeField s.currentAgent p.currentAgent := rfl

@[simp] theorem applyPatch_history (s : AgentState) (p : Patch) :
    (applyPatch s p).history = mergeField s.history p.history := rfl

theorem recordHasKey_iff (m : List (String × String)) (k : String) :
    recordHasKey m k = true ↔ k ∈ recordKeys m := by
  simp [recordHasKey, List.elem_iff]

theorem mem_recordKeys_recordSet_self (m : List (String × String)) (k v : String) :
    k ∈ recordKeys (recordSet m k v) := by
  induction m with
  | nil => simp [recordSet, recordKeys]
  | cons kv rest ih =>
    obtain ⟨k0, v0⟩ := kv
    by_cases h0 : k0 = k
    · simp [recordSet, h0, recordKeys]
    · simp only [recordSet, if_neg h0, recordKeys, List.map_cons, List.mem_cons]
      right
      simpa [recordKeys] using ih

theorem mem_recordKeys_recordSet (m : List (String × String)) (k v k' : String)
    (h : k' ∈ recordKeys m) : k' ∈ recordKeys (recordSet m k v) := by
  induction m with
  | nil => simp [recordKeys] at h
  | cons kv rest ih =>
    obtain ⟨k0, v0⟩ := kv
    simp only [recordKeys, List.map_cons, List.mem_cons] at h
    by_cases h0 : k0 = k
    · simp only [recordSet, if_pos h0, recordKeys, List.map_cons, List.mem_cons]
      rcases h with h1 | h2
      · left; rw [h1, h0]
      · right; exact h2
    · simp only [recordSet, if_neg h0, recordKeys, List.map_cons, List.mem_cons]
      rcases h with h1 | h2
      · left; exact h1
      · right
        have h3 := ih (by simpa [recordKeys] using h2)
        simpa [recordKeys] using h3

theorem recordSet_hasKey (m : List (String × String)) (k v : String) :
    recordHasKey (recordSet m k v) k = true :=
  (recordHasKey_iff _ _).mpr (mem_recordKeys_recordSet_self m k v)

theorem recordSet_hasKey_mono (m : List (String × String)) (k k' v : String)
    (h : recordHasKey m k = true) : recordHasKey (recordSet m k' v) k = true :=
  (recordHasKey_iff _ _).mpr
    (mem_recordKeys_recordSet m k' v k ((recordHasKey_iff _ _).mp h))

@[simp] theorem sysEntry_agent (m : String) : (sysEntry m).agent = none := rfl

@[simp] theorem totalConsultations_nil : totalConsultations [] = 0 := rfl

@[simp] theorem consultCounts_nil (a : String) : consultCounts [] a = 0 := rfl

theorem totalConsultations_cons (e : HistoryEntry) (h : List HistoryEntry) :
    totalConsultations (e :: h) =
      (if isCountedAgent e.agent = true then 1 else 0) + totalConsultations h := by
  simp only [totalConsultations, List.filter_cons]
  by_cases hc : isCountedAgent e.agent = true
  · simp [hc, Nat.add_comm]
  · simp [hc]

theorem consultCounts_cons (e : HistoryEntry) (h : List HistoryEntry) (a : String) :
    consultCounts (e :: h) a =
      (if (isCountedAgent e.agent && e.agent == some a) = true then 1 else 0) +
        consultCounts h a := by
  simp only [consultCounts, List.filter_cons]
  by_cases hc : (isCountedAgent e.agent && e.agent == some a) = true
  · simp [hc, Nat.add_comm]
  · simp [hc]

theorem consultCounts_append (h1 h2 : List HistoryEntry) (a : String) :
    consultCounts (h1 ++ h2) a = consultCounts h1 a + consultCounts h2 a := by
  simp [consultCounts, List.filter_append]

theorem totalConsultations_append (h1 h2 : List HistoryEntry) :
    totalConsultations (h1 ++ h2) = totalConsultations h1 + totalConsultations h2 := by
  simp [totalConsultations, List.filter_append]

@[simp] theorem consultCounts_sysEntry (m a : String) :
    consultCounts [sysEntry m] a = 0 := rfl

@[simp] theorem totalConsultations_sysEntry (m : String) :
    totalConsultations [sysEntry m] = 0 := rfl

theorem consultCounts_agentEntry (r id a : String) (hid : id ≠ ("")) :
    consultCounts [{ role := ("agent"), content := r, agent := some id }] a =
      if id = a then 1 else 0 := by
  have hbne : (id != ("")) = true := by simpa [bne_iff_ne] using hid
  by_cases h : id = a
  · subst h
    simp [consultCounts, isCountedAgent, List.filter_cons, hbne]
  · simp [consultCounts, isCountedAgent, List.filter_cons, hbne, h]

theorem totalConsultations_agentEntry (r id : String) (hid : id ≠ ("")) :
    totalConsultations [{ role := ("agent"), content := r, agent := some id }] = 1 := by
  have hbne : (id != ("")) = true := by simpa [bne_iff_ne] using hid
  simp [totalConsultations, isCountedAgent, List.filter_cons, hbne]

theorem agentIds_ne_empty : ∀ x ∈ agentIds, x ≠ ("") := by decide

theorem complete_not_mem_agentIds : ("complete") ∉ agentIds := by decide

theorem synthesize_not_mem_agentIds : ("synthesize") ∉ agentIds := by decide

/-! ## Node characterization lemmas -/

theorem agentNode_ok (c : Collaborators) (id : String) (s : AgentState) (r : String)
    (h : c.handleQuery id s.query = .ok r) :
    agentNode c id s = .ok
      { agentResponses := some (recordSet s.agentResponses id r),
        history := some (s.history ++
          [{ role := ("agent"), content := r, agent := some id }]) } := by
  unfold agentNode
  rw [h]

theorem agentNode_ok_inv (c : Collaborators) (id : String) (s : AgentState) (p : Patch)
    (h : agentNode c id s = .ok p) :
    ∃ r, c.handleQuery id s.query = .ok r ∧
      p = { agentResponses := some (recordSet s.agentResponses id r),
            history := some (s.history ++
              [{ role := ("agent"), content := r, agent := some id }]) } := by
  unfold agentNode at h
  cases hh : c.handleQuery id s.query with
  | error e => rw [hh] at h; cases h
  | ok r =>
    rw [hh] at h
    exact ⟨r, rfl, (Except.ok.injEq _ _).mp h.symm⟩

/-- The hard stop of `evaluatorNode`: above the global consultation cap, or a
current responder already at the per-responder cap, completion is forced; the
result does not depend on the collaborators and the judge-called flag is
`false` — no external call is made. -/
theorem evaluatorNode_hardStop (c : Collaborators) (s : AgentState)
    (h : 5 < totalConsultations s.history ∨
      maxConsultationsPerAgent ≤ consultCounts s.history (s.currentAgent.getD (""))) :
    evaluatorNode c s = .ok (hardStopPatch s, false) := by
  unfold evaluatorNode
  rw [if_pos h]

theorem judgeAccepts_iff (s : AgentState) (clean : String) :
    judgeAccepts s clean = true ↔
      clean ∈ agentIds ∧ some clean ≠ s.currentAgent ∧
        consultCounts s.history clean < maxConsultationsPerAgent := by
  unfold judgeAccepts
  constructor
  · intro h
    split at h
    · split at h
      · rename_i h1 h2
        exact ⟨h1.2.1, h1.2.2, h2⟩
      · cases h
    · cases h
  · rintro ⟨hm, hne, hcnt⟩
    have hcompl : clean ≠ ("complete") := by
      intro e
      exact complete_not_mem_agentIds (e ▸ hm)
    rw [if_pos ⟨hcompl, hm, hne⟩, if_pos hcnt]

/-- Below both caps the evaluator consults the judge and returns the patch
determined by `judgeAccepts` on the trimmed, lower-cased judge output. -/
theorem evaluatorNode_judge (c : Collaborators) (s : AgentState) (ev : String)
    (hTot : totalConsultations s.history ≤ 5)
    (hCur : consultCounts s.history (s.currentAgent.getD ("")) < maxConsultationsPerAgent)
    (hCall : c.callOpenAI (evaluationPrompt s) = .ok ev) :
    evaluatorNode c s = .ok
      ({ needsRerouting := some (judgeAccepts s (strToLower (strTrim ev))),
         currentAgent := some (if judgeAccepts s (strToLower (strTrim ev)) then
             some (strToLower (strTrim ev)) else s.currentAgent),
         history := some (s.history ++
           [sysEntry (if judgeAccepts s (strToLower (strTrim ev)) then
              ("Response needs additional information from ") ++ strToLower (strTrim ev) ++ (" agent")
            else ("Response is complete"))]) }, true) := by
  unfold evaluatorNode
  rw [if_neg (by omega), hCall]
  rfl

/-- Shape inversion for any successful evaluator run: only `needsRerouting`,
`currentAgent` and `history` can be patched, the history grows by one system
entry, and a `needsRerouting = true` patch can only arise from an accepted
reroute obeying all three acceptance conditions below both caps. -/
theorem evaluatorNode_ok_inv (c : Collaborators) (s : AgentState) (p : Patch) (b : Bool)
    (h : evaluatorNode c s = .ok (p, b)) :
    p.agentResponses = none ∧ p.query = none ∧ p.topic = none ∧ p.finalResponse = none ∧
    (∃ msg, p.history = some (s.history ++ [sysEntry msg])) ∧
    ((p.needsRerouting = some false ∧
        (p.currentAgent = none ∨ p.currentAgent = some s.currentAgent)) ∨
     (∃ clean, p.needsRerouting = some true ∧ p.currentAgent = some (some clean) ∧
        clean ∈ agentIds ∧ consultCounts s.history clean < maxConsultationsPerAgent ∧
        some clean ≠ s.currentAgent ∧ totalConsultations s.history ≤ 5)) := by
  by_cases hcap : 5 < totalConsultations s.history ∨
      maxConsultationsPerAgent ≤ consultCounts s.history (s.currentAgent.getD (""))
  · rw [evaluatorNode_hardStop c s hcap] at h
    injection h with h1
    injection h1 with hp hb
    subst hp
    exact ⟨rfl, rfl, rfl, rfl, ⟨_, rfl⟩, .inl ⟨rfl, .inl rfl⟩⟩
  · push_neg at hcap
    have hTot : totalConsultations s.history ≤ 5 := hcap.1
    have hCur : consultCounts s.history (s.currentAgent.getD ("")) < maxConsultationsPerAgent :=
      hcap.2
    cases hc : c.callOpenAI (evaluationPrompt s) with
    | error e =>
      unfold evaluatorNode at h
      rw [if_neg (by omega), hc] at h
      cases h
    | ok ev =>
      rw [evaluatorNode_judge c s ev hTot hCur hc] at h
      injection h with h1
      injection h1 with hp hb
      subst hp
      refine ⟨rfl, rfl, rfl, rfl, ⟨_, rfl⟩, ?_⟩
      by_cases hacc : judgeAccepts s (strToLower (strTrim ev)) = true
      · right
        obtain ⟨hm, hne, hcnt⟩ := (judgeAccepts_iff s _).mp hacc
        refine ⟨strToLower (strTrim ev), ?_, ?_, hm, hcnt, hne, hTot⟩
        · show some (judgeAccepts s (strToLower (strTrim ev))) = some true
          rw [hacc]
        · show some (if judgeAccepts s (strToLower (strTrim ev)) then
              some (strToLower (strTrim ev)) else s.currentAgent) = _
          rw [if_pos hacc]
      · left
        have hacc' : judgeAccepts s (strToLower (strTrim ev)) = false :=
          Bool.not_eq_true _ ▸ Bool.of_not_eq_true hacc
        constructor
        · show some (judgeAccepts s (strToLower (strTrim ev))) = some false
          rw [hacc']
        · right
          show some (if judgeAccepts s (strToLower (strTrim ev)) then
              some (strToLower (strTrim ev)) else s.currentAgent) = _
          rw [hacc']
          rfl

theorem synthesisNode_single (c : Collaborators) (s : AgentState) (k v : String)
    (h : s.agentResponses = [(k, v)]) :
    synthesisNode c s = .ok
      ({ finalResponse := some (some v),
         history := some (s.history ++
           [sysEntry (("Using direct response from ") ++ k ++ (" agent"))]) }, false) := by
  unfold synthesisNode
  rw [h]
  simp [recordKeys, recordGet]

theorem synthesisNode_multi (c : Collaborators) (s : AgentState) (r : String)
    (hlen : s.agentResponses.length ≠ 1)
    (hc : c.callOpenAI (synthesisPrompt s.query s.agentResponses) = .ok r) :
    synthesisNode c s = .ok
      ({ finalResponse := some (some r),
         history := some (s.history ++
           [sysEntry ("Synthesized response from multiple agents")]) }, true) := by
  unfold synthesisNode
  rw [if_neg hlen, hc]

theorem synthesisNode_ok_inv (c : Collaborators) (s : AgentState) (p : Patch) (b : Bool)
    (h : synthesisNode c s = .ok (p, b)) :
    p.agentResponses = none ∧ p.query = none ∧ p.topic = none ∧
    p.needsRerouting = none ∧ p.currentAgent = none ∧
    (∃ msg, p.history = some (s.history ++ [sysEntry msg])) := by
  unfold synthesisNode at h
  split at h
  · obtain ⟨hp, hb⟩ := Prod.mk.injEq .. ▸ (Except.ok.injEq _ _).mp h
    subst hp
    exact ⟨rfl, rfl, rfl, rfl, rfl, _, rfl⟩
  · cases hc : c.callOpenAI (synthesisPrompt s.query s.agentResponses) with
    | error e => rw [hc] at h; cases h
    | ok r =>
      rw [hc] at h
      obtain ⟨hp, hb⟩ := Prod.mk.injEq .. ▸ (Except.ok.injEq _ _).mp h
      subst hp
      exact ⟨rfl, rfl, rfl, rfl, rfl, _, rfl⟩

/-! ## Loop-step analysis -/

/-- Facts about a loop round that continues with another responder: the
dispatched responder ran (exactly one more tagged history entry, its own key
written into the responses map), the judge's reroute was accepted below the
global cap, and the next key is a recognized responder whose count is at most
one. -/
theorem runStep_loop_facts {c : Collaborators} {key : String} {s : AgentState}
    {k' : String} {s' : AgentState} (h : runStep c key s = .loop k' s') :
    key ∈ agentIds ∧
    totalConsultations s'.history = totalConsultations s.history + 1 ∧
    totalConsultations s'.history ≤ 5 ∧
    s'.currentAgent = some k' ∧
    k' ∈ agentIds ∧
    consultCounts s'.history k' ≤ 1 ∧
    (∀ x, consultCounts s'.history x =
      consultCounts s.history x + (if key = x then 1 else 0)) ∧
    (∀ t, recordHasKey s.agentResponses t = true →
      recordHasKey s'.agentResponses t = true) := by
  unfold runStep at h
  split at h
  case isFalse => cases h
  case isTrue hkey =>
  have hkeymem : key ∈ agentIds := by
    simpa [List.elem_iff] using hkey
  have hkeyne : key ≠ ("") := agentIds_ne_empty key hkeymem
  cases hA : agentNode c key s with
  | error e => rw [hA] at h; cases h
  | ok p =>
  rw [hA] at h
  obtain ⟨r, hr, rfl⟩ := agentNode_ok_inv c key s p hA
  simp only [] at h
  cases hE : evaluatorNode c (applyPatch s
      { agentResponses := some (recordSet s.agentResponses key r),
        history := some (s.history ++
          [{ role := ("agent"), content := r, agent := some key }]) }) with
  | error e => rw [hE] at h; cases h
  | ok pb =>
  obtain ⟨p2, b2⟩ := pb
  rw [hE] at h
  simp only [] at h
  obtain ⟨hpa, hpq, hpt, hpf, ⟨msg, hph⟩, hnr⟩ := evaluatorNode_ok_inv _ _ _ _ hE
  split at h
  case isTrue hsyn =>
    cases hS : synthesisNode c _ with
    | error e => rw [hS] at h; cases h
    | ok pb3 => rw [hS] at h; cases h
  case isFalse hsyn =>
  injection h with hk hs
  subst hk
  subst hs
  rcases hnr with ⟨hfalse, _⟩ | ⟨clean, htrue, hca, hm, hcnt, hne, hTot5⟩
  · exfalso
    apply hsyn
    simp [getNextAgentFromEvaluation, hfalse]
  · have hcur : (applyPatch (applyPatch s
        { agentResponses := some (recordSet s.agentResponses key r),
          history := some (s.history ++
            [{ role := ("agent"), content := r, agent := some key }]) }) p2).currentAgent =
        some clean := by
      simp [hca]
    have hkeyEq : getNextAgentFromEvaluation (applyPatch (applyPatch s
        { agentResponses := some (recordSet s.agentResponses key r),
          history := some (s.history ++
            [{ role := ("agent"), content := r, agent := some key }]) }) p2) = clean := by
      simp [getNextAgentFromEvaluation, htrue, hca]
    refine ⟨hkeymem, ?_, ?_, ?_, ?_, ?_, ?_, ?_⟩
    · simp [hph, totalConsultations_append, totalConsultations_cons,
        isCountedAgent, bne_iff_ne, hkeyne]
    · simp only [applyPatch_history, hph, mergeField_some]
      rw [totalConsultations_append]
      simpa [totalConsultations_append, totalConsultations_cons,
        isCountedAgent, bne_iff_ne, hkeyne] using hTot5
    · rw [hkeyEq]
      exact hcur
    · rw [hkeyEq]; exact hm
    · rw [hkeyEq]
      simp only [applyPatch_history, hph, mergeField_some] at *
      rw [consultCounts_append]
      simp only [consultCounts_cons, consultCounts_nil, sysEntry_agent]
      simp only [isCountedAgent, Bool.false_and, if_neg (by simp : ¬(false = true)),
        Nat.zero_add, Nat.add_zero]
      simpa [maxConsultationsPerAgent, Nat.lt_succ_iff] using hcnt
    · intro x
      simp only [applyPatch_history, hph, mergeField_some]
      rw [consultCounts_append]
      simp [consultCounts_append, consultCounts_cons, isCountedAgent,
        bne_iff_ne, hkeyne]
    · intro t ht
      simp only [applyPatch_agentResponses, hpa, mergeField_some, mergeField_none]
      exact recordSet_hasKey_mono _ _ _ _ ht

/-- Facts about a loop round that finishes through the synthesizer: the
dispatched responder ran once more and then only untagged system entries were
appended, so the final totals are the entry totals plus one. -/
theorem runStep_finished_facts {c : Collaborators} {key : String} {s : AgentState}
    {f : AgentState} (h : runStep c key s = .finished f) :
    key ∈ agentIds ∧
    totalConsultations f.history = totalConsultations s.history + 1 ∧
    (∀ x, consultCounts f.history x =
      consultCounts s.history x + (if key = x then 1 else 0)) ∧
    (∀ t, recordHasKey s.agentResponses t = true →
      recordHasKey f.agentResponses t = true) := by
  unfold runStep at h
  split at h
  case isFalse => cases h
  case isTrue hkey =>
  have hkeymem : key ∈ agentIds := by
    simpa [List.elem_iff] using hkey
  have hkeyne : key ≠ ("") := agentIds_ne_empty key hkeymem
  cases hA : agentNode c key s with
  | error e => rw [hA] at h; cases h
  | ok p =>
  rw [hA] at h
  obtain ⟨r, hr, rfl⟩ := agentNode_ok_inv c key s p hA
  simp only [] at h
  cases hE : evaluatorNode c (applyPatch s
      { agentResponses := some (recordSet s.agentResponses key r),
        history := some (s.history ++
          [{ role := ("agent"), content := r, agent := some key }]) }) with
  | error e => rw [hE] at h; cases h
  | ok pb =>
  obtain ⟨p2, b2⟩ := pb
  rw [hE] at h
  simp only [] at h
  obtain ⟨hpa, hpq, hpt, hpf, ⟨msg, hph⟩, hnr⟩ := evaluatorNode_ok_inv _ _ _ _ hE
  split at h
  case isFalse hsyn => cases h
  case isTrue hsyn =>
  cases hS : synthesisNode c _ with
  | error e => rw [hS] at h; cases h
  | ok pb3 =>
  obtain ⟨p3, b3⟩ := pb3
  rw [hS] at h
  simp only [] at h
  injection h with hf
  subst hf
  obtain ⟨hsa, hsq, hst, hsn, hsc, ⟨msg3, hsh⟩⟩ := synthesisNode_ok_inv _ _ _ _ hS
  refine ⟨hkeymem, ?_, ?_, ?_⟩
  · simp only [applyPatch_history, hsh, hph, mergeField_some]
    simp [totalConsultations_append, totalConsultations_cons,
      isCountedAgent, bne_iff_ne, hkeyne]
  · intro x
    simp only [applyPatch_history, hsh, hph, mergeField_some]
    rw [consultCounts_append]
    simp [consultCounts_append, consultCounts_cons, isCountedAgent,
      bne_iff_ne, hkeyne]
  · intro t ht
    simp only [applyPatch_agentResponses, hsa, hpa, mergeField_some, mergeField_none]
    exact recordSet_hasKey_mono _ _ _ _ ht

/-! ## Run-level invariants -/

theorem runStep_errored_ne_outOfFuel {c : Collaborators} {key : String} {s : AgentState}
    {e : RunError} (h : runStep c key s = .errored e) : e ≠ RunError.outOfFuel := by
  unfold runStep at h
  split at h
  case isFalse =>
    injection h with he
    subst he
    intro hcontra
    cases hcontra
  case isTrue hkey =>
  cases hA : agentNode c key s with
  | error e2 =>
    rw [hA] at h
    injection h with he
    subst he
    intro hcontra
    cases hcontra
  | ok p =>
  rw [hA] at h
  simp only [] at h
  cases hE : evaluatorNode c (applyPatch s p) with
  | error e2 =>
    rw [hE] at h
    injection h with he
    subst he
    intro hcontra
    cases hcontra
  | ok pb =>
  obtain ⟨p2, b2⟩ := pb
  rw [hE] at h
  simp only [] at h
  split at h
  case isTrue hsyn =>
    cases hS : synthesisNode c (applyPatch (applyPatch s p) p2) with
    | error e2 =>
      rw [hS] at h
      injection h with he
      subst he
      intro hcontra
      cases hcontra
    | ok pb3 =>
      rw [hS] at h
      cases h
  case isFalse hsyn => cases h

/-- With at least one round of fuel, and six rounds available counting the
consultations already on record, the loop never hits the recursion limit. -/
theorem runFrom_no_outOfFuel (c : Collaborators) :
    ∀ (fuel : Nat) (key : String) (s : AgentState), 1 ≤ fuel →
      6 ≤ fuel + totalConsultations s.history →
      runFrom c fuel key s ≠ .error .outOfFuel := by
  intro fuel
  induction fuel with
  | zero =>
    intro key s h1 _
    omega
  | succ n ih =>
    intro key s _ h6
    unfold runFrom
    cases hstep : runStep c key s with
    | errored e =>
      intro hcontra
      injection hcontra with he
      exact runStep_errored_ne_outOfFuel hstep he
    | finished f => simp
    | loop key' s' =>
      show runFrom c n key' s' ≠ Except.error RunError.outOfFuel
      obtain ⟨-, htoteq, htot5, -, -, -, -, -⟩ := runStep_loop_facts hstep
      exact ih key' s' (by omega) (by omega)

/-- Any state an `ok` run ends in shows at most six responder executions. -/
theorem runFrom_total_bound (c : Collaborators) :
    ∀ (fuel : Nat) (key : String) (s : AgentState) (f : AgentState),
      totalConsultations s.history ≤ 5 →
      runFrom c fuel key s = .ok f → totalConsultations f.history ≤ 6 := by
  intro fuel
  induction fuel with
  | zero =>
    intro key s f h5 h
    cases h
  | succ n ih =>
    intro key s f h5 h
    unfold runFrom at h
    cases hstep : runStep c key s with
    | errored e =>
      rw [hstep] at h
      cases h
    | finished g =>
      rw [hstep] at h
      injection h with hg
      subst hg
      obtain ⟨-, htot, -, -⟩ := runStep_finished_facts hstep
      omega
    | loop key' s' =>
      rw [hstep] at h
      obtain ⟨-, -, htot5, -, -, -, -, -⟩ := runStep_loop_facts hstep
      exact ih key' s' f htot5 h

/-- Any state an `ok` run ends in keeps every responder's execution count at
or below two, provided the loop is entered with the dispatched responder at
count at most one and every responder at count at most two. -/
theorem runFrom_cap (c : Collaborators) :
    ∀ (fuel : Nat) (key : String) (s : AgentState) (f : AgentState),
      consultCounts s.history key ≤ 1 →
      (∀ x, consultCounts s.history x ≤ 2) →
      runFrom c fuel key s = .ok f →
      ∀ x, consultCounts f.history x ≤ 2 := by
  intro fuel
  induction fuel with
  | zero =>
    intro key s f h1 h2 h
    cases h
  | succ n ih =>
    intro key s f hckey hall h x
    unfold runFrom at h
    cases hstep : runStep c key s with
    | errored e =>
      rw [hstep] at h
      cases h
    | finished g =>
      rw [hstep] at h
      injection h with hg
      subst hg
      obtain ⟨-, -, hcnt, -⟩ := runStep_finished_facts hstep
      rw [hcnt x]
      by_cases hx : key = x
      · rw [if_pos hx]
        rw [← hx]
        omega
      · rw [if_neg hx]
        have := hall x
        omega
    | loop key' s' =>
      rw [hstep] at h
      obtain ⟨-, -, -, -, -, hc1, hcnt, -⟩ := runStep_loop_facts hstep
      refine ih key' s' f hc1 ?_ h x
      intro y
      rw [hcnt y]
      by_cases hy : key = y
      · rw [if_pos hy]
        rw [← hy]
        omega
      · rw [if_neg hy]
        have := hall y
        omega

/-- Once a key is present in the responses map at loop entry, it is present in
the final state of any `ok` run. -/
theorem runFrom_responses_mono (c : Collaborators) :
    ∀ (fuel : Nat) (key : String) (s : AgentState) (f : AgentState) (t : String),
      runFrom c fuel key s = .ok f →
      recordHasKey s.agentResponses t = true →
      recordHasKey f.agentResponses t = true := by
  intro fuel
  induction fuel with
  | zero =>
    intro key s f t h ht
    cases h
  | succ n ih =>
    intro key s f t h ht
    unfold runFrom at h
    cases hstep : runStep c key s with
    | errored e =>
      rw [hstep] at h
      cases h
    | finished g =>
      rw [hstep] at h
      injection h with hg
      subst hg
      obtain ⟨-, -, -, hmono⟩ := runStep_finished_facts hstep
      exact hmono t ht
    | loop key' s' =>
      rw [hstep] at h
      obtain ⟨-, -, -, -, -, -, -, hmono⟩ := runStep_loop_facts hstep
      exact ih key' s' f t h (hmono t ht)

/-- The analyzer's topic is always one of the five responder ids. -/
theorem classifyTopic_mem (r : String) : classifyTopic r ∈ agentIds := by
  unfold classifyTopic
  simp only []
  split_ifs <;> simp [agentIds]

/-- Characterization of a successful entry segment: the classifier was called
on the analyzer prompt, its topic became both the routed key and
`currentAgent`, and the loop starts with empty responses and zero counts. -/
theorem routeStage_ok_inv (c : Collaborators) (q : String) (key : String) (s : AgentState)
    (h : routeStage c q = .ok (key, s)) :
    ∃ resp, c.callOpenAI (analyzerPrompt q) = .ok resp ∧
      key = classifyTopic resp ∧
      s.topic = some (classifyTopic resp) ∧
      s.currentAgent = some (classifyTopic resp) ∧
      s.agentResponses = [] ∧
      totalConsultations s.history = 0 ∧
      (∀ x, consultCounts s.history x = 0) ∧
      s.query = q := by
  unfold routeStage at h
  cases hA : analyzerNode c (initialState q) with
  | error e =>
    rw [hA] at h
    cases h
  | ok p =>
  rw [hA] at h
  simp only [] at h
  unfold analyzerNode at hA
  cases hc : c.callOpenAI (analyzerPrompt (initialState q).query) with
  | error e =>
    rw [hc] at hA
    cases hA
  | ok resp =>
  rw [hc] at hA
  injection hA with hp
  subst hp
  injection h with h1
  injection h1 with hk hs
  subst hk
  subst hs
  refine ⟨resp, hc, ?_, ?_, ?_, ?_, ?_, ?_, ?_⟩ <;>
    simp [initialState, routerNode, applyPatch, mergeField, defaultMerger,
      getNextAgentFromTopic, totalConsultations_cons, consultCounts_cons,
      isCountedAgent, sysEntry]

/-! ## Graph-level wrappers -/

theorem runGraph_total_bound (c : Collaborators) (fuel : Nat) (q : String)
    (final : AgentState) (h : runGraph c fuel q = .ok final) :
    totalConsultations final.history ≤ 6 := by
  unfold runGraph at h
  cases hR : routeStage c q with
  | error e =>
    rw [hR] at h
    cases h
  | ok ks =>
    obtain ⟨key, s⟩ := ks
    rw [hR] at h
    simp only [] at h
    obtain ⟨resp, -, -, -, -, -, htot, -, -⟩ := routeStage_ok_inv c q key s hR
    exact runFrom_total_bound c fuel key s final (by omega) h

theorem runGraph_no_outOfFuel (c : Collaborators) (q : String) :
    runGraph c 6 q ≠ .error .outOfFuel := by
  unfold runGraph
  cases hR : routeStage c q with
  | error e => simp
  | ok ks =>
    obtain ⟨key, s⟩ := ks
    show runFrom c 6 key s ≠ Except.error RunError.outOfFuel
    obtain ⟨resp, -, -, -, -, -, htot, -, -⟩ := routeStage_ok_inv c q key s hR
    exact runFrom_no_outOfFuel c 6 key s (by omega) (by omega)

theorem runGraph_cap (c : Collaborators) (fuel : Nat) (q : String)
    (final : AgentState) (h : runGraph c fuel q = .ok final) (x : String) :
    consultCounts final.history x ≤ 2 := by
  unfold runGraph at h
  cases hR : routeStage c q with
  | error e =>
    rw [hR] at h
    cases h
  | ok ks =>
    obtain ⟨key, s⟩ := ks
    rw [hR] at h
    simp only [] at h
    obtain ⟨resp, -, -, -, -, -, -, hcnt, -⟩ := routeStage_ok_inv c q key s hR
    refine runFrom_cap c fuel key s final ?_ ?_ h x
    · rw [hcnt key]
      omega
    · intro y
      rw [hcnt y]
      omega

/-! ## Claim theorems -/

/-- C1, counterexample: the claim says every run halts within 5 total
responder executions and that the evaluator hard-stops at
`totalConsultations ≥ 5`. Against the adversarial cycling judge the run
completes successfully with SIX responder executions: at
`totalConsultations = 5` the code (`totalConsultations > 5`) does not stop,
calls the judge once more and accepts one further reroute. -/
theorem claim1_counterexample :
    (runGraph cyclingCollabs 10 ("q")).map (fun s => totalConsultations s.history) =
      .ok 6 := by rfl

/-- C1, amended: a run halts within SIX total responder executions: whenever
`totalConsultations` is strictly greater than 5 after a responder runs, the
evaluator forces `needsRerouting = false` (the hard-stop patch) without making
any further external call (the returned flag is `false` and the result does
not depend on the collaborators). -/
theorem claim1_amended :
    (∀ (s : AgentState), (hardStopPatch s).needsRerouting = some false) ∧
    (∀ (c : Collaborators) (s : AgentState), 5 < totalConsultations s.history →
      evaluatorNode c s = .ok (hardStopPatch s, false)) ∧
    (∀ (c : Collaborators) (fuel : Nat) (q : String) (final : AgentState),
      runGraph c fuel q = .ok final → totalConsultations final.history ≤ 6) := by
  refine ⟨fun s => rfl, fun c s h => evaluatorNode_hardStop c s (Or.inl h), ?_⟩
  intro c fuel q final h
  exact runGraph_total_bound c fuel q final h

/-- C1, witness: the amended theorem applied at a state with six recorded
responder executions and at a concrete successful run. -/
theorem claim1_witness :
    evaluatorNode benignCollabs sixState = .ok (hardStopPatch sixState, false) ∧
    totalConsultations (getOk (runGraph benignCollabs 10 ("q"))).history ≤ 6 :=
  ⟨claim1_amended.2.1 benignCollabs sixState (by decide),
   claim1_amended.2.2 benignCollabs 10 ("q") (getOk (runGraph benignCollabs 10 ("q"))) (by rfl)⟩

/-- C2: in every successful run no responder's execution count exceeds 2; the
evaluator hard-stops (no external call) when the current responder's count has
reached `maxConsultationsPerAgent = 2`; and a patch that accepts a reroute
(`needsRerouting = true`) always names a responder whose count is still below
the cap. -/
theorem claim2_per_responder_cap :
    (∀ (c : Collaborators) (fuel : Nat) (q : String) (final : AgentState),
      runGraph c fuel q = .ok final →
      ∀ x, consultCounts final.history x ≤ maxConsultationsPerAgent) ∧
    (∀ (c : Collaborators) (s : AgentState),
      maxConsultationsPerAgent ≤ consultCounts s.history (s.currentAgent.getD ("")) →
      evaluatorNode c s = .ok (hardStopPatch s, false)) ∧
    (∀ (c : Collaborators) (s : AgentState) (p : Patch) (b : Bool) (x : String),
      evaluatorNode c s = .ok (p, b) → p.needsRerouting = some true →
      p.currentAgent = some (some x) →
      consultCounts s.history x < maxConsultationsPerAgent) := by
  refine ⟨?_, fun c s h => evaluatorNode_hardStop c s (Or.inr h), ?_⟩
  · intro c fuel q final h x
    exact runGraph_cap c fuel q final h x
  · intro c s p b x h htrue hca
    obtain ⟨-, -, -, -, -, hnr⟩ := evaluatorNode_ok_inv c s p b h
    rcases hnr with ⟨hfalse, -⟩ | ⟨clean, -, hca2, -, hcnt, -, -⟩
    · rw [hfalse] at htrue
      cases htrue
    · rw [hca2] at hca
      injection hca with hca
      injection hca with hca
      rw [← hca]
      exact hcnt

/-- C2, witness: the three parts applied at a concrete run, at a state whose
current responder already ran twice, and at a concrete accepted reroute. -/
theorem claim2_witness :
    consultCounts (getOk (runGraph benignCollabs 10 ("q"))).history ("news") ≤
      maxConsultationsPerAgent ∧
    evaluatorNode benignCollabs twiceState = .ok (hardStopPatch twiceState, false) ∧
    consultCounts oneState.history ("sports") < maxConsultationsPerAgent :=
  ⟨claim2_per_responder_cap.1 benignCollabs 10 ("q")
      (getOk (runGraph benignCollabs 10 ("q"))) (by rfl) ("news"),
   claim2_per_responder_cap.2.1 benignCollabs twiceState (by decide),
   claim2_per_responder_cap.2.2 sportsJudgeCollabs oneState
      (evalPatchOf sportsJudgeCollabs oneState) true ("sports") (by rfl) (by rfl) (by rfl)⟩

/-- C3, counterexample: the claim says the engine merges sequence fields by
append and map fields by key union. At the concrete freshly analyzed state the
router's returned patch merged into the state gives a 3-entry history, not the
5-entry history an append merge would give; and the channel merger itself
(`defaultMerger`, installed as the `value` of every channel) discards any map
key absent from the new value, so it is not a key union. -/
theorem claim3_counterexample :
    (applyPatch mergeDemoState (routerNode mergeDemoState)).history ≠
      mergeDemoState.history ++ ((routerNode mergeDemoState).history.getD []) ∧
    recordHasKey (defaultMerger [(("weather"), ("a"))] [(("sports"), ("b"))]) ("weather") =
      false := by
  exact ⟨by decide, by rfl⟩

/-- C3, amended: the engine merges every channel with the same
`defaultMerger`, i.e. by whole-field override (last write wins on the field,
for map, sequence and scalar channels alike); key accumulation and history
append are realized by the nodes, which spread the previous state into their
patches, so merging a responder node's patch yields the old map with that
responder's key set and the old history with exactly one entry appended, while
channels absent from the patch are unchanged. -/
theorem claim3_amended :
    (∀ (a b : List (String × String)), defaultMerger a b = b) ∧
    (∀ (a b : List HistoryEntry), defaultMerger a b = b) ∧
    (∀ (a b : String), defaultMerger a b = b) ∧
    (∀ (c : Collaborators) (id : String) (s : AgentState) (r : String) (p : Patch),
      c.handleQuery id s.query = .ok r → agentNode c id s = .ok p →
      (applyPatch s p).agentResponses = recordSet s.agentResponses id r ∧
      (applyPatch s p).history = s.history ++
        [{ role := ("agent"), content := r, agent := some id }] ∧
      (applyPatch s p).query = s.query ∧
      (applyPatch s p).topic = s.topic ∧
      (applyPatch s p).finalResponse = s.finalResponse ∧
      (applyPatch s p).currentAgent = s.currentAgent) := by
  refine ⟨fun a b => rfl, fun a b => rfl, fun a b => rfl, ?_⟩
  intro c id s r p hr hp
  rw [agentNode_ok c id s r hr] at hp
  injection hp with hp
  subst hp
  exact ⟨rfl, rfl, rfl, rfl, rfl, rfl⟩

/-- C3, witness: the substantive conjunct applied at a concrete state and
responder. -/
theorem claim3_witness :
    (applyPatch multiState pNews).agentResponses =
      recordSet multiState.agentResponses ("news") (("ans-") ++ ("news")) ∧
    (applyPatch multiState pNews).history = multiState.history ++
      [{ role := ("agent"), content := (("ans-") ++ ("news")), agent := some ("news") }] ∧
    (applyPatch multiState pNews).query = multiState.query ∧
    (applyPatch multiState pNews).topic = multiState.topic ∧
    (applyPatch multiState pNews).finalResponse = multiState.finalResponse ∧
    (applyPatch multiState pNews).currentAgent = multiState.currentAgent :=
  claim3_amended.2.2.2 benignCollabs ("news") multiState (("ans-") ++ ("news"))
    pNews (by rfl) (by rfl)

/-- C4: with exactly one collected response the synthesizer passes it through
verbatim with no external call (the result does not depend on the
collaborators and the called flag is `false`); with more than one entry it
sets `finalResponse` to the synthesis collaborator's output on the prompt
built from the query and all collected answers. -/
theorem claim4_synthesis_passthrough :
    (∀ (c : Collaborators) (s : AgentState) (k v : String),
      s.agentResponses = [(k, v)] →
      synthesisNode c s = .ok
        ({ finalResponse := some (some v),
           history := some (s.history ++
             [sysEntry (("Using direct response from ") ++ k ++ (" agent"))]) }, false)) ∧
    (∀ (c : Collaborators) (s : AgentState) (r : String),
      1 < s.agentResponses.length →
      c.callOpenAI (synthesisPrompt s.query s.agentResponses) = .ok r →
      synthesisNode c s = .ok
        ({ finalResponse := some (some r),
           history := some (s.history ++
             [sysEntry ("Synthesized response from multiple agents")]) }, true)) := by
  refine ⟨fun c s k v h => synthesisNode_single c s k v h, ?_⟩
  intro c s r hlen hc
  exact synthesisNode_multi c s r (by omega) hc

/-- C4, witness: both branches at concrete states. -/
theorem claim4_witness :
    synthesisNode failingCollabs oneState = .ok
      ({ finalResponse := some (some ("ans-weather")),
         history := some (oneState.history ++
           [sysEntry (("Using direct response from ") ++ ("weather") ++ (" agent"))]) }, false) ∧
    synthesisNode benignCollabs multiState = .ok
      ({ finalResponse := some (some ("complete")),
         history := some (multiState.history ++
           [sysEntry ("Synthesized response from multiple agents")]) }, true) :=
  ⟨claim4_synthesis_passthrough.1 failingCollabs oneState ("weather") ("ans-weather") (by rfl),
   claim4_synthesis_passthrough.2 benignCollabs multiState ("complete") (by decide) (by rfl)⟩

/-- C5: when the classifier's lower-cased, trimmed output contains none of the
five vocabulary words, the topic is the default "news" and the router's
conditional edge dispatches the news responder. -/
theorem claim5_fallback_routing :
    ∀ (c : Collaborators) (q resp : String),
      c.callOpenAI (analyzerPrompt q) = .ok resp →
      strIncludes (strTrim (strToLower resp)) ("weather") = false →
      strIncludes (strTrim (strToLower resp)) ("sports") = false →
      strIncludes (strTrim (strToLower resp)) ("news") = false →
      strIncludes (strTrim (strToLower resp)) ("stocks") = false →
      strIncludes (strTrim (strToLower resp)) ("health") = false →
      classifyTopic resp = ("news") ∧
      (∀ (key : String) (s : AgentState), routeStage c q = .ok (key, s) →
        key = ("news") ∧ s.topic = some ("news") ∧ s.currentAgent = some ("news")) ∧
      (∃ (key : String) (s : AgentState), routeStage c q = .ok (key, s)) := by
  intro c q resp hcall h1 h2 h3 h4 h5
  have htopic : classifyTopic resp = ("news") := by
    simp [classifyTopic, h1, h2, h3, h4, h5]
  have hA : analyzerNode c (initialState q) = .ok
      { topic := some (some (classifyTopic resp)),
        history := some ((initialState q).history ++
          [sysEntry (("Query categorized as: ") ++ classifyTopic resp)]) } := by
    unfold analyzerNode
    simp only [initialState]
    rw [hcall]
  refine ⟨htopic, ?_, ?_⟩
  · intro key s hR
    obtain ⟨resp2, hcall2, hk, ht, hca, -, -, -, -⟩ := routeStage_ok_inv c q key s hR
    rw [hcall] at hcall2
    injection hcall2 with hresp
    subst hresp
    exact ⟨by rw [hk, htopic], by rw [ht, htopic], by rw [hca, htopic]⟩
  · cases hR : routeStage c q with
    | error e =>
      exfalso
      unfold routeStage at hR
      rw [hA] at hR
      simp only [] at hR
      cases hR
    | ok ks =>
      obtain ⟨key, s⟩ := ks
      exact ⟨key, s, rfl⟩

/-- C5, witness: a classifier output "banana" matching no vocabulary word
yields topic "news" and routes to the news responder. -/
theorem claim5_witness :
    classifyTopic ("banana") = ("news") ∧
    (∀ (key : String) (s : AgentState),
      routeStage bananaCollabs ("hello") = .ok (key, s) →
      key = ("news") ∧ s.topic = some ("news") ∧ s.currentAgent = some ("news")) ∧
    (∃ (key : String) (s : AgentState),
      routeStage bananaCollabs ("hello") = .ok (key, s)) :=
  claim5_fallback_routing bananaCollabs ("hello") ("banana") (by rfl)
    (by decide) (by decide) (by decide) (by decide) (by decide)

/-- C6: after the judge is consulted (both caps unmet) and its output trimmed
and lower-cased, the evaluator accepts a reroute exactly when the normalized
output is a recognized responder id, differs from the current responder, and
that responder's count is below the cap; in every other case it returns
`needsRerouting = false`, keeps `currentAgent`, and the next node resolved
from the merged state is the synthesizer. -/
theorem claim6_judge_normalization :
    ∀ (c : Collaborators) (s : AgentState) (ev : String),
      totalConsultations s.history ≤ 5 →
      consultCounts s.history (s.currentAgent.getD ("")) < maxConsultationsPerAgent →
      c.callOpenAI (evaluationPrompt s) = .ok ev →
      ((strToLower (strTrim ev) ∈ agentIds ∧
          some (strToLower (strTrim ev)) ≠ s.currentAgent ∧
          consultCounts s.history (strToLower (strTrim ev)) < maxConsultationsPerAgent) →
        ∃ p, evaluatorNode c s = .ok (p, true) ∧ p.needsRerouting = some true ∧
          p.currentAgent = some (some (strToLower (strTrim ev)))) ∧
      (¬(strToLower (strTrim ev) ∈ agentIds ∧
          some (strToLower (strTrim ev)) ≠ s.currentAgent ∧
          consultCounts s.history (strToLower (strTrim ev)) < maxConsultationsPerAgent) →
        ∃ p, evaluatorNode c s = .ok (p, true) ∧ p.needsRerouting = some false ∧
          p.currentAgent = some s.currentAgent ∧
          getNextAgentFromEvaluation (applyPatch s p) = ("synthesize")) := by
  intro c s ev hTot hCur hCall
  have hE := evaluatorNode_judge c s ev hTot hCur hCall
  constructor
  · intro hcond
    have hacc : judgeAccepts s (strToLower (strTrim ev)) = true :=
      (judgeAccepts_iff s _).mpr hcond
    refine ⟨_, hE, ?_, ?_⟩
    · simp [hacc]
    · simp [hacc]
  · intro hcond
    have hacc : judgeAccepts s (strToLower (strTrim ev)) = false := by
      rcases Bool.eq_false_or_eq_true (judgeAccepts s (strToLower (strTrim ev))) with h | h
      · exact absurd ((judgeAccepts_iff s _).mp h) hcond
      · exact h
    refine ⟨_, hE, ?_, ?_, ?_⟩
    · simp [hacc]
    · simp [hacc]
    · simp [getNextAgentFromEvaluation, hacc]

/-- C6, witness: a concrete accepted reroute (judge says "sports" while
weather is current). -/
theorem claim6_witness :
    ∃ p, evaluatorNode sportsJudgeCollabs oneState = .ok (p, true) ∧
      p.needsRerouting = some true ∧
      p.currentAgent = some (some (strToLower (strTrim ("sports")))) :=
  (claim6_judge_normalization sportsJudgeCollabs oneState ("sports")
    (by decide) (by decide) (by rfl)).1 (by decide)

/-- C7: every error thrown while executing the graph makes `processQuery`
return the fixed generic fallback message, independent of the error. -/
theorem claim7_generic_error_message :
    ∀ (c : Collaborators) (fuel : Nat) (q : String) (e : RunError),
      runGraph c fuel q = .error e →
      processQuery c fuel q = ("Sorry, an error occurred while processing your query.") := by
  intro c fuel q e h
  unfold processQuery
  rw [h]

/-- C7, witness: a failing classifier collaborator. -/
theorem claim7_witness :
    processQuery failingCollabs 3 ("q") =
      ("Sorry, an error occurred while processing your query.") :=
  claim7_generic_error_message failingCollabs 3 ("q") (.collab ("boom")) (by rfl)

/-- C8: the responses map never loses a key: every node's merged patch
preserves every key already present (responder nodes only add or overwrite
their own key; the other nodes do not patch the map at all), and hence any
successful loop run preserves every key present at entry into its final
state. -/
theorem claim8_monotonic_responses :
    (∀ (s : AgentState) (t : String), recordHasKey s.agentResponses t = true →
      (∀ (c : Collaborators) (p : Patch), analyzerNode c s = .ok p →
        recordHasKey (applyPatch s p).agentResponses t = true) ∧
      (recordHasKey (applyPatch s (routerNode s)).agentResponses t = true) ∧
      (∀ (c : Collaborators) (id : String) (p : Patch), agentNode c id s = .ok p →
        recordHasKey (applyPatch s p).agentResponses t = true) ∧
      (∀ (c : Collaborators) (p : Patch) (b : Bool), evaluatorNode c s = .ok (p, b) →
        recordHasKey (applyPatch s p).agentResponses t = true) ∧
      (∀ (c : Collaborators) (p : Patch) (b : Bool), synthesisNode c s = .ok (p, b) →
        recordHasKey (applyPatch s p).agentResponses t = true)) ∧
    (∀ (c : Collaborators) (fuel : Nat) (key : String) (s : AgentState)
        (final : AgentState) (t : String),
      runFrom c fuel key s = .ok final →
      recordHasKey s.agentResponses t = true →
      recordHasKey final.agentResponses t = true) := by
  constructor
  · intro s t ht
    refine ⟨?_, ?_, ?_, ?_, ?_⟩
    · intro c p hp
      unfold analyzerNode at hp
      cases hc : c.callOpenAI (analyzerPrompt s.query) with
      | error e => rw [hc] at hp; cases hp
      | ok resp =>
        rw [hc] at hp
        injection hp with hp
        subst hp
        simpa using ht
    · simpa [routerNode] using ht
    · intro c id p hp
      obtain ⟨r, -, rfl⟩ := agentNode_ok_inv c id s p hp
      simpa using recordSet_hasKey_mono _ _ _ _ ht
    · intro c p b hp
      obtain ⟨hpa, -, -, -, -, -⟩ := evaluatorNode_ok_inv c s p b hp
      simpa [hpa] using ht
    · intro c p b hp
      obtain ⟨hpa, -, -, -, -, -⟩ := synthesisNode_ok_inv c s p b hp
      simpa [hpa] using ht
  · intro c fuel key s final t h ht
    exact runFrom_responses_mono c fuel key s final t h ht

/-- C8, witness: the router and loop parts at a concrete state carrying the
weather key. -/
theorem claim8_witness :
    recordHasKey (applyPatch oneState (routerNode oneState)).agentResponses ("weather") = true ∧
    recordHasKey (getOk (runFrom benignCollabs 5 ("sports") oneState)).agentResponses
      ("weather") = true :=
  ⟨((claim8_monotonic_responses.1 oneState ("weather") (by rfl)).2.1),
   claim8_monotonic_responses.2 benignCollabs 5 ("sports") oneState
     (getOk (runFrom benignCollabs 5 ("sports") oneState)) ("weather") (by rfl) (by rfl)⟩

/-- C9 (implicit): the responder-evaluator loop always terminates — six rounds
of fuel are never exhausted — and total responder executions never exceed six;
moreover once the total strictly exceeds 5 any successful evaluator result
forces `needsRerouting = false` and the next node resolved from the merged
state is the synthesizer. -/
theorem claim9_termination_bound :
    (∀ (c : Collaborators) (q : String), runGraph c 6 q ≠ .error .outOfFuel) ∧
    (∀ (c : Collaborators) (fuel : Nat) (q : String) (final : AgentState),
      runGraph c fuel q = .ok final → totalConsultations final.history ≤ 6) ∧
    (∀ (c : Collaborators) (s : AgentState) (p : Patch) (b : Bool),
      5 < totalConsultations s.history → evaluatorNode c s = .ok (p, b) →
      p.needsRerouting = some false ∧
      getNextAgentFromEvaluation (applyPatch s p) = ("synthesize")) := by
  refine ⟨runGraph_no_outOfFuel, ?_, ?_⟩
  · intro c fuel q final h
    exact runGraph_total_bound c fuel q final h
  · intro c s p b h5 hE
    rw [evaluatorNode_hardStop c s (Or.inl h5)] at hE
    injection hE with hE
    injection hE with hp hb
    subst hp
    constructor
    · rfl
    · simp [getNextAgentFromEvaluation, hardStopPatch]

/-- C9, witness: the three parts at concrete inputs. -/
theorem claim9_witness :
    runGraph benignCollabs 6 ("q") ≠ .error .outOfFuel ∧
    totalConsultations (getOk (runGraph benignCollabs 6 ("q"))).history ≤ 6 ∧
    (hardStopPatch sixState).needsRerouting = some false ∧
    getNextAgentFromEvaluation (applyPatch sixState (hardStopPatch sixState)) =
      ("synthesize") :=
  ⟨claim9_termination_bound.1 benignCollabs ("q"),
   claim9_termination_bound.2.1 benignCollabs 6 ("q")
     (getOk (runGraph benignCollabs 6 ("q"))) (by rfl),
   claim9_termination_bound.2.2 benignCollabs sixState (hardStopPatch sixState) false
     (by decide) (by rfl)⟩

/-- C10 (implicit): when the classifier output matches several vocabulary
words, topic selection follows the fixed priority weather, sports, news,
stocks, health; in particular an output containing both "stocks" and "news"
(and neither "weather" nor "sports") classifies as "news". -/
theorem claim10_priority_order (resp : String) :
    (strIncludes (strTrim (strToLower resp)) ("weather") = true →
      classifyTopic resp = ("weather")) ∧
    (strIncludes (strTrim (strToLower resp)) ("weather") = false →
      strIncludes (strTrim (strToLower resp)) ("sports") = true →
      classifyTopic resp = ("sports")) ∧
    (strIncludes (strTrim (strToLower resp)) ("weather") = false →
      strIncludes (strTrim (strToLower resp)) ("sports") = false →
      strIncludes (strTrim (strToLower resp)) ("news") = true →
      classifyTopic resp = ("news")) ∧
    (strIncludes (strTrim (strToLower resp)) ("weather") = false →
      strIncludes (strTrim (strToLower resp)) ("sports") = false →
      strIncludes (strTrim (strToLower resp)) ("news") = false →
      strIncludes (strTrim (strToLower resp)) ("stocks") = true →
      classifyTopic resp = ("stocks")) ∧
    (strIncludes (strTrim (strToLower resp)) ("weather") = false →
      strIncludes (strTrim (strToLower resp)) ("sports") = false →
      strIncludes (strTrim (strToLower resp)) ("news") = false →
      strIncludes (strTrim (strToLower resp)) ("stocks") = false →
      strIncludes (strTrim (strToLower resp)) ("health") = true →
      classifyTopic resp = ("health")) := by
  refine ⟨?_, ?_, ?_, ?_, ?_⟩
  · intro h1
    simp [classifyTopic, h1]
  · intro h1 h2
    simp [classifyTopic, h1, h2]
  · intro h1 h2 h3
    simp [classifyTopic, h1, h2, h3]
  · intro h1 h2 h3 h4
    simp [classifyTopic, h1, h2, h3, h4]
  · intro h1 h2 h3 h4 h5
    simp [classifyTopic, h1, h2, h3, h4, h5]

/-- C10, witness: an output containing both "stocks" and "news" classifies as
"news". -/
theorem claim10_witness : classifyTopic ("stocks and news") = ("news") :=
  (claim10_priority_order ("stocks and news")).2.2.1 (by decide) (by decide) (by decide)

end AgentGraph
